import Mathlib

/-!
Verification of the forest-echo-game per-frame simulation logic.

The JavaScript sources are shallowly embedded over the real numbers:
JS objects `{x, y, z}` become the structure `Vec3`, JS mutation of a
position or of per-element `userData` becomes explicit state passing
(functions return the post-state), and module-level mutable state
(velocity, flags, wind phase) is threaded as arguments and results.
`Math.sqrt`, `Math.sin`, `Math.cos` become `Real.sqrt`, `Real.sin`,
`Real.cos`; `Math.random()` draws are passed in as explicit arguments
constrained to `[0, 1)` where relevant.
-/

open scoped Classical

noncomputable section

namespace ForestEcho

/-- Vector with x, y, z components, modelling a `THREE.Vector3` (used for
positions, velocities and also Euler rotation triples `{x, y, z}`). -/
structure Vec3 where
  x : ℝ
  y : ℝ
  z : ℝ

/-- Planar wind direction `{x, z}`, from `windDirection` in src/animation.js. -/
structure Dir2 where
  x : ℝ
  z : ℝ

/-- Tree record pushed by `createForest`: `{ mesh, radius }`.  `position` is
`tree.mesh.position`; `radius` is the collision radius `0.7 * scale`. -/
structure Tree where
  position : Vec3
  radius : ℝ

/- Constants from src/constants.js. -/

/-- World side length, `WORLD_SIZE = 1000` in src/constants.js. -/
def WORLD_SIZE : ℝ := 1000

/-- Movement speed, `CHARACTER_SPEED = 150.0` in src/constants.js. -/
def CHARACTER_SPEED : ℝ := 150

/-- Character height, `CHARACTER_HEIGHT = 1.7` in src/constants.js. -/
def CHARACTER_HEIGHT : ℝ := 1.7

/-- Gravity acceleration, `GRAVITY = 30.0` in src/constants.js. -/
def GRAVITY : ℝ := 30

/-- Jump impulse, `JUMP_FORCE = 10.0` in src/constants.js. -/
def JUMP_FORCE : ℝ := 10

/- Physics: src/physics.js. -/

/-- Planar (x, z) distance from a point to a center, as computed by
`Math.sqrt(dx * dx + dz * dz)` in src/physics.js lines 13-15 (with
`dx = position.x - treePos.x`, `dz = position.z - treePos.z`). -/
def planarDist (p : Vec3) (c : Vec3) : ℝ :=
  Real.sqrt ((p.x - c.x) * (p.x - c.x) + (p.z - c.z) * (p.z - c.z))

/-- Post-state of a `checkTreeCollisions` call: the (possibly pushed)
character position, the tree list as it stands after the call (the loop
only ever reads tree fields, so the embedding threads the list through
unchanged), and the returned boolean. -/
structure CollisionResult where
  position : Vec3
  trees : List Tree
  collided : Bool

/-- Embedding of `checkTreeCollisions(position, radius, trees)` from
src/physics.js lines 10-30.  For each tree in order it computes the planar
distance; on the first tree with `distance < radius + tree.radius` it pushes
the position outward along `(dx / distance, dz / distance)` to distance
`radius + tree.radius` from the tree center and returns true, otherwise it
continues and finally returns false with the position untouched.  Note that
in Lean division by zero yields 0 whereas in JS `0 / 0` is `NaN`; the
zero-distance case is analysed separately. -/
def checkTreeCollisions (position : Vec3) (radius : ℝ) (trees : List Tree) :
    CollisionResult :=
  match trees with
  | [] => ⟨position, [], false⟩
  | tree :: rest =>
    let dx := position.x - tree.position.x
    let dz := position.z - tree.position.z
    let distance := planarDist position tree.position
    if distance < radius + tree.radius then
      let pushX := dx / distance
      let pushZ := dz / distance
      ⟨⟨tree.position.x + pushX * (radius + tree.radius), position.y,
        tree.position.z + pushZ * (radius + tree.radius)⟩, tree :: rest, true⟩
    else
      let r := checkTreeCollisions position radius rest
      ⟨r.position, tree :: r.trees, r.collided⟩

/-- Embedding of `isInWater(position, waterSurface, WORLD_SIZE)` from
src/physics.js lines 39-49.  `waterSurface` is `none` when the water mesh is
absent (JS falsy guard `if (!waterSurface) return false`), otherwise `some`
of its position.  The function is pure: it only reads its arguments. -/
def isInWater (position : Vec3) (waterSurface : Option Vec3) (worldSize : ℝ) :
    Prop :=
  match waterSurface with
  | none => False
  | some waterPos =>
    |position.x - waterPos.x| < worldSize / 6 ∧
    |position.z - waterPos.z| < worldSize / 6

/- World generation: createForest / createUndergrowth
   (src/unnamed/part_000 lines 202-232 and 238-266, src/main.js 232-241). -/

/-- Coordinate sampling `Math.random() * WORLD_SIZE - WORLD_SIZE / 2`
(src/unnamed/part_000 lines 210-211), with `u` the raw `Math.random()`
draw in `[0, 1)` and `S` the world size. -/
def sampleCoord (u : ℝ) (S : ℝ) : ℝ := u * S - S / 2

/-- Rejection predicate of the world generator (src/unnamed/part_000
line 214-215, identical in `createUndergrowth` and in src/main.js lines
237-238): a candidate `(x, z)` is rejected (resampled) when
`Math.sqrt(x*x + z*z) < 10` or it falls inside the lake rectangle
`|z + S/4| < S/6 && |x| < S/6`. -/
def createForestRejects (x z S : ℝ) : Prop :=
  Real.sqrt (x * x + z * z) < 10 ∨ (|z + S / 4| < S / 6 ∧ |x| < S / 6)

/- Movement integrator: src/core.js animate (lines 198-257) with
   updateCharacterRotation from src/character.js (lines 224-240). -/

/-- Movement state from src/character.js: input flags, jump permission and
the persistent velocity vector. -/
structure MovementState where
  moveForward : Bool
  moveBackward : Bool
  turnLeft : Bool
  turnRight : Bool
  canJump : Bool
  velocity : Vec3

/-- JS `Number(flag)` on a boolean movement flag. -/
def jsNumber (b : Bool) : ℝ := if b then 1 else 0

/-- Truncating integer part (JS division semantics for `%`): rounds toward
zero. -/
def jsTrunc (a : ℝ) : ℤ := if 0 ≤ a then ⌊a⌋ else ⌈a⌉

/-- JS remainder operator `a % b`: `a - b * trunc(a / b)`, sign of the
dividend. -/
def jsMod (a b : ℝ) : ℝ := a - b * jsTrunc (a / b)

/-- Embedding of `updateCharacterRotation(delta)` from src/character.js
lines 224-240: yaw changes by `rotationSpeed = 2.0` rad/s under the turn
flags, then is reduced with JS `%` modulo `2 * Math.PI`. -/
def updateCharacterRotation (rotY : ℝ) (ms : MovementState) (delta : ℝ) : ℝ :=
  let r1 := if ms.turnLeft then rotY + 2.0 * delta else rotY
  let r2 := if ms.turnRight then r1 - 2.0 * delta else r1
  jsMod r2 (2 * Real.pi)

/-- Velocity computation of one frame, src/core.js lines 202-227: gravity is
applied to `velocity.y` unconditionally, `velocity.x`/`velocity.z` are reset
to 0 and recomputed from the input flags.  `direction` is the module-level
`THREE.Vector3` whose `x` is set to 0 and whose `y` is never written (it
stays 0), so `direction.normalize()` divides `direction.z` by
`Math.sqrt(direction.z * direction.z)`.  The speed is `CHARACTER_SPEED`,
halved when `isInWater(character.position, ...)` holds, and the horizontal
velocity is rotated by the character's current yaw `angle`. -/
def computeFrameVelocity (ms : MovementState) (angle : ℝ) (pos : Vec3)
    (water : Option Vec3) (moveDelta : ℝ) : Vec3 :=
  let vy := ms.velocity.y - GRAVITY * moveDelta
  let dirZ := jsNumber ms.moveForward - jsNumber ms.moveBackward
  if dirZ ≠ 0 then
    let ndz := dirZ / Real.sqrt (dirZ * dirZ)
    let speed := if isInWater pos water WORLD_SIZE then CHARACTER_SPEED * 0.5
                 else CHARACTER_SPEED
    ⟨Real.sin angle * ndz * speed * moveDelta, vy,
     Real.cos angle * ndz * speed * moveDelta⟩
  else
    ⟨0, vy, 0⟩

/-- Embedding of the world-bounds clamp, src/core.js lines 246-250 (identical
in src/main.js lines 444-448): four sequential `if` statements clamping the
x and z coordinates to `[-WORLD_SIZE / 2, WORLD_SIZE / 2]`. -/
def clampToWorld (p : Vec3) : Vec3 :=
  let h := WORLD_SIZE / 2
  let x1 := if p.x < -h then -h else p.x
  let x2 := if x1 > h then h else x1
  let z1 := if p.z < -h then -h else p.z
  let z2 := if z1 > h then h else z1
  ⟨x2, p.y, z2⟩

/-- Post-state of one frame of the src/core.js movement block. -/
structure CoreFrameResult where
  position : Vec3
  rotY : ℝ
  velocity : Vec3
  canJump : Bool

/-- Embedding of the character-movement block of `animate` in src/core.js
lines 198-257: velocity computation (lines 202-227), rotation update (line
230; `animateCharacterWalking` only rotates limb sub-objects and is
irrelevant to this state), horizontal then vertical position update (lines
236-240), tree collisions (line 243), world-bounds clamp (lines 246-250)
and ground-contact check against `CHARACTER_HEIGHT / 2` (lines 253-257).
`moveDelta` is the physics delta `(time - prevTime) / 1000` and `delta` the
clock delta used for the rotation. -/
def animateFrameCore (pos : Vec3) (rotY : ℝ) (ms : MovementState)
    (water : Option Vec3) (trees : List Tree) (moveDelta delta : ℝ) :
    CoreFrameResult :=
  let vel1 := computeFrameVelocity ms rotY pos water moveDelta
  let rotY1 := updateCharacterRotation rotY ms delta
  let pos1 : Vec3 := ⟨pos.x + vel1.x, pos.y + vel1.y * moveDelta, pos.z + vel1.z⟩
  let col := checkTreeCollisions pos1 1.0 trees
  let pos2 := clampToWorld col.position
  if pos2.y < CHARACTER_HEIGHT / 2 then
    ⟨⟨pos2.x, CHARACTER_HEIGHT / 2, pos2.z⟩, rotY1, ⟨vel1.x, 0, vel1.z⟩, true⟩
  else
    ⟨pos2, rotY1, vel1, ms.canJump⟩

/- Vertical dynamics of the src/main.js animate loop (lines 402-461).
   Between the gravity line (407) and the `camera.position.y` update (451)
   only the x and z coordinates are touched (horizontal movement, tree
   collisions and the world clamp), so the y / velocity.y / canJump
   dynamics of one frame project onto the following two functions. -/

/-- State of the vertical dynamics: camera height, vertical velocity and the
`canJump` flag. -/
structure VerticalState where
  y : ℝ
  vy : ℝ
  canJump : Bool

/-- Gravity and vertical integration of one src/main.js frame: line 407
(`velocity.y -= GRAVITY * delta`) followed by line 451
(`camera.position.y += velocity.y * delta`). -/
def integrateVertical (s : VerticalState) (dt : ℝ) : VerticalState :=
  ⟨s.y + (s.vy - GRAVITY * dt) * dt, s.vy - GRAVITY * dt, s.canJump⟩

/-- Ground-contact check of src/main.js lines 454-458: if the camera height
is strictly below `CHARACTER_HEIGHT`, zero the vertical velocity, snap to
`CHARACTER_HEIGHT` and re-enable jumping. -/
def groundContact (s : VerticalState) : VerticalState :=
  if s.y < CHARACTER_HEIGHT then ⟨CHARACTER_HEIGHT, 0, true⟩ else s

/-- One frame of the src/main.js vertical dynamics (no jump key event during
the frame): integration followed by the ground-contact check. -/
def verticalFrame (s : VerticalState) (dt : ℝ) : VerticalState :=
  groundContact (integrateVertical s dt)

/- Wind animator: src/animation.js. -/

/-- Gust smoothing step, src/animation.js line 72:
`currentGustStrength += (targetGustStrength - currentGustStrength) * delta * 0.5`. -/
def smoothGustStep (current target dt : ℝ) : ℝ :=
  current + (target - current) * dt * 0.5

/-- State of one animatable leaf (a pine leaf layer or deciduous leaf
cluster): the `userData` snapshot captured at creation time
(src/unnamed/part_000 lines 73-76 and 171-175; `originalPosition` is only
set for deciduous clusters, hence the `Option`s) together with the current
transform. -/
structure Leaf where
  originalRotation : Option Vec3
  originalPosition : Option Vec3
  windFactor : Option ℝ
  rotation : Vec3
  position : Vec3

/-- Per-leaf body of `animateLeaves` (src/animation.js lines 149-190) for
leaf index `i`: flutter, directional wind and turbulence terms are computed
from the global wind time, the effective wind strength, the wind direction,
the leaf index and the per-leaf wind factor (`leaf.userData.windFactor ||
1.0`; the factor is drawn in `[0.6, 1.5)` at creation so it is never the
falsy 0), and the rotation / position are set to the captured original plus
those offsets whenever the respective original is present. -/
def animateLeafStep (windTime windStrength : ℝ) (windDir : Dir2) (i : ℕ)
    (leaf : Leaf) : Leaf :=
  let wf := leaf.windFactor.getD 1.0
  let flutterSpeed := 1.5 + wf * 0.5
  let flutterStrength := 0.1 * windStrength
  let flutter := Real.sin (windTime * flutterSpeed + i * 2.5) * flutterStrength
  let windX := Real.sin (windTime + i) * windStrength * wf * windDir.x
  let windZ := Real.cos (windTime * 0.7 + i * 0.2) * windStrength * wf * windDir.z
  let turbX := Real.sin (windTime * 2.3 + i * 0.7) * windStrength * 0.2
  let turbY := Real.sin (windTime * 1.8 + i * 0.5) * windStrength * 0.15
  let turbZ := Real.sin (windTime * 2.1 + i * 0.3) * windStrength * 0.2
  let rot := match leaf.originalRotation with
    | some o => Vec3.mk (o.x + windX * 0.08 + turbX + flutter)
        (o.y + flutter * 0.5) (o.z + windZ * 0.08 + turbZ + flutter)
    | none => leaf.rotation
  let pos := match leaf.originalPosition with
    | some o => Vec3.mk (o.x + windX * 0.3 + turbX * 0.5)
        (o.y + Real.sin (windTime * 0.5 + i) * 0.08 * wf + turbY * 0.5)
        (o.z + windZ * 0.3 + turbZ * 0.5)
    | none => leaf.position
  { leaf with rotation := rot, position := pos }

/-- State of a branch mesh animated by the branch loop of
`animateTreeTrunks`: lazily captured original rotation plus the current
rotation. -/
structure Branch where
  originalRotation : Option Vec3
  rotation : Vec3

/-- Per-branch body of `animateTreeTrunks` (src/animation.js lines 113-139)
for child index `i`: on first touch the current rotation is captured into
`userData.originalRotation`; the rotation is then set to the original plus a
phase-offset directional sway with factor `0.08`. -/
def animateBranchStep (windTime windStrength : ℝ) (windDir : Dir2) (i : ℕ)
    (branch : Branch) : Branch :=
  let orig := branch.originalRotation.getD branch.rotation
  let branchSwayX := Real.sin (windTime * 0.7 + i * 0.5) * windStrength * 0.08 * windDir.z
  let branchSwayZ := Real.sin (windTime * 0.6 + i * 0.5) * windStrength * 0.08 * windDir.x
  ⟨some orig, ⟨orig.x + branchSwayX, branch.rotation.y, orig.z + branchSwayZ⟩⟩

/-- State of a bush mesh: its (static) world position, lazily captured
original rotation and current rotation. -/
structure Bush where
  position : Vec3
  originalRotation : Option Vec3
  rotation : Vec3

/-- Per-bush body of `animateUndergrowth` (src/animation.js lines 218-236):
lazy original-rotation capture, then a rigid rotational sway with factor
`0.03` whose phase is offset by the bush's world position. -/
def animateBushStep (windTime windStrength : ℝ) (windDir : Dir2)
    (item : Bush) : Bush :=
  let orig := item.originalRotation.getD item.rotation
  let swayX := Real.sin (windTime * 0.6 + item.position.x * 0.05) * windStrength * 0.03 * windDir.z
  let swayZ := Real.sin (windTime * 0.5 + item.position.z * 0.05) * windStrength * 0.03 * windDir.x
  ⟨item.position, some orig, ⟨orig.x + swayX, item.rotation.y, orig.z + swayZ⟩⟩

/-- Per-grass-blade body of `animateUndergrowth` (src/animation.js lines
200-217) for blade index `i` of a grass tuft at world x-coordinate
`itemPosX`.  The three `Math.random()` draws made by the body — one for the
flutter term and one for each of the two rotation axes — are passed in as
`r1`, `r2`, `r3`. -/
def animateGrassBladeStep (windTime windStrength : ℝ) (windDir : Dir2) (i : ℕ)
    (itemPosX : ℝ) (r1 r2 r3 : ℝ) (blade : Vec3) : Vec3 :=
  let baseWindEffect := Real.sin (windTime * 1.5 + i + itemPosX * 0.1) * windStrength * 0.15
  let flutter := (r1 - 0.5) * 0.03 * windStrength
  ⟨(r2 - 0.5) * 0.02 + baseWindEffect * windDir.z + flutter,
   blade.y,
   (r3 - 0.5) * 0.02 + baseWindEffect * windDir.x + flutter⟩

/- Theorems. -/

/-- Helper: a square root is at least 10 once its argument is at least 100. -/
lemma ten_le_sqrt {s : ℝ} (h : 100 ≤ s) : 10 ≤ Real.sqrt s := by
  have h10 : (10 : ℝ) = Real.sqrt 100 := by
    rw [show (100 : ℝ) = 10 ^ 2 by norm_num,
      Real.sqrt_sq (by norm_num : (0 : ℝ) ≤ 10)]
  rw [h10]
  exact Real.sqrt_le_sqrt h

/-- C2: every candidate point the world generator accepts (for trees and
undergrowth alike) lies in the closed square `[-S/2, S/2]²`, is at planar
distance at least 10 from the origin, and lies outside the lake rectangle
centered at `(0, -S/4)` with half-width `S/6`; moreover, with `S = 1000`
the rejection predicate rejects `(0, 0)` and accepts `(500, 500)`. -/
theorem C2_world_generation :
    (∀ (S u v : ℝ), 0 < S → 0 ≤ u → u < 1 → 0 ≤ v → v < 1 →
      ¬ createForestRejects (sampleCoord u S) (sampleCoord v S) S →
      (-(S / 2) ≤ sampleCoord u S ∧ sampleCoord u S ≤ S / 2 ∧
       -(S / 2) ≤ sampleCoord v S ∧ sampleCoord v S ≤ S / 2) ∧
      10 ≤ Real.sqrt (sampleCoord u S * sampleCoord u S +
        sampleCoord v S * sampleCoord v S) ∧
      ¬ (|sampleCoord v S + S / 4| < S / 6 ∧ |sampleCoord u S| < S / 6)) ∧
    createForestRejects 0 0 1000 ∧
    ¬ createForestRejects 500 500 1000 := by
  refine ⟨?_, ?_, ?_⟩
  · intro S u v hS hu0 hu1 hv0 hv1 hacc
    rw [createForestRejects, not_or] at hacc
    obtain ⟨hdist, hlake⟩ := hacc
    refine ⟨⟨?_, ?_, ?_, ?_⟩, not_lt.mp hdist, hlake⟩
    · unfold sampleCoord; nlinarith
    · unfold sampleCoord; nlinarith
    · unfold sampleCoord; nlinarith
    · unfold sampleCoord; nlinarith
  · left
    norm_num [Real.sqrt_zero]
  · rw [createForestRejects, not_or]
    constructor
    · rw [not_lt, show (500 : ℝ) * 500 + 500 * 500 = 500000 by norm_num]
      exact le_trans (by norm_num) (ten_le_sqrt (by norm_num))
    · rintro ⟨h1, h2⟩
      rw [abs_of_nonneg (by norm_num : (0 : ℝ) ≤ 500)] at h2
      linarith

/-- C2 witness: the acceptance theorem applied at `S = 1000`,
`u = v = 3/4`, i.e. the accepted point `(250, 250)`. -/
theorem C2_world_generation_witness :
    (-(1000 / 2 : ℝ) ≤ sampleCoord (3 / 4) 1000 ∧
      sampleCoord (3 / 4) 1000 ≤ 1000 / 2 ∧
      -(1000 / 2 : ℝ) ≤ sampleCoord (3 / 4) 1000 ∧
      sampleCoord (3 / 4) 1000 ≤ 1000 / 2) ∧
    10 ≤ Real.sqrt (sampleCoord (3 / 4) 1000 * sampleCoord (3 / 4) 1000 +
      sampleCoord (3 / 4) 1000 * sampleCoord (3 / 4) 1000) ∧
    ¬ (|sampleCoord (3 / 4) 1000 + 1000 / 4| < 1000 / 6 ∧
       |sampleCoord (3 / 4) 1000| < 1000 / 6) := by
  refine C2_world_generation.1 1000 (3 / 4) (3 / 4) (by norm_num) (by norm_num)
    (by norm_num) (by norm_num) (by norm_num) ?_
  have hs : sampleCoord (3 / 4 : ℝ) 1000 = 250 := by norm_num [sampleCoord]
  rw [createForestRejects, not_or, hs]
  constructor
  · rw [not_lt, show (250 : ℝ) * 250 + 250 * 250 = 125000 by norm_num]
    exact ten_le_sqrt (by norm_num)
  · rintro ⟨h1, h2⟩
    rw [abs_of_nonneg (by norm_num : (0 : ℝ) ≤ 250)] at h2
    linarith

/-- C6 counterexample: at `dt = 6` the gust filter overshoots.  With
`current = 0`, `target = 1` the new value is `3`, which does not lie between
the old value and the target, and the gap to the target grows from `1`
to `2`. -/
theorem C6_gust_overshoot_counterexample :
    smoothGustStep 0 1 6 = 3 ∧
    ¬((0 : ℝ) ≤ smoothGustStep 0 1 6 ∧ smoothGustStep 0 1 6 ≤ 1) ∧
    |1 - smoothGustStep 0 1 6| > |1 - (0 : ℝ)| := by
  norm_num [smoothGustStep]

/-- C6 (amended: for frame deltas `0 ≤ dt ≤ 2`): the gust smoothing step
equals `current + (target - current) * dt * 0.5`, lies between the old value
and the target (no overshoot), and the absolute gap to the target never
increases. -/
theorem C6_gust_filter (c t dt : ℝ) (h0 : 0 ≤ dt) (h2 : dt ≤ 2) :
    smoothGustStep c t dt = c + (t - c) * dt * 0.5 ∧
    (c ≤ t → c ≤ smoothGustStep c t dt ∧ smoothGustStep c t dt ≤ t) ∧
    (t ≤ c → t ≤ smoothGustStep c t dt ∧ smoothGustStep c t dt ≤ c) ∧
    |t - smoothGustStep c t dt| ≤ |t - c| := by
  refine ⟨rfl, fun h => ⟨?_, ?_⟩, fun h => ⟨?_, ?_⟩, ?_⟩
  · unfold smoothGustStep; nlinarith
  · unfold smoothGustStep; nlinarith
  · unfold smoothGustStep; nlinarith
  · unfold smoothGustStep; nlinarith
  · have hrw : t - smoothGustStep c t dt = (t - c) * (1 - dt * 0.5) := by
      unfold smoothGustStep; ring
    rw [hrw, abs_mul]
    have h1 : |1 - dt * 0.5| ≤ 1 := abs_le.mpr ⟨by linarith, by linarith⟩
    calc |t - c| * |1 - dt * 0.5| ≤ |t - c| * 1 :=
          mul_le_mul_of_nonneg_left h1 (abs_nonneg _)
      _ = |t - c| := mul_one _

/-- C6 witness: the amended gust-filter theorem at `current = 0`,
`target = 1`, `dt = 1`. -/
theorem C6_gust_filter_witness :
    smoothGustStep 0 1 1 = 0 + (1 - 0) * 1 * 0.5 ∧
    ((0 : ℝ) ≤ 1 → (0 : ℝ) ≤ smoothGustStep 0 1 1 ∧ smoothGustStep 0 1 1 ≤ 1) ∧
    ((1 : ℝ) ≤ 0 → (1 : ℝ) ≤ smoothGustStep 0 1 1 ∧ smoothGustStep 0 1 1 ≤ 0) ∧
    |1 - smoothGustStep 0 1 1| ≤ |1 - (0 : ℝ)| :=
  C6_gust_filter 0 1 1 (by norm_num) (by norm_num)

/-- C9: `isInWater` is a pure horizontal rectangular containment test: with
a water surface present it holds iff both `|position.x - waterPos.x|` and
`|position.z - waterPos.z|` are below `worldSize / 6`; it is false whenever
the water surface is absent; and it is insensitive to the vertical
coordinate.  (As a pure function of its arguments, it modifies nothing.) -/
theorem C9_isInWater_spec :
    (∀ (p w : Vec3) (S : ℝ),
      isInWater p (some w) S ↔ |p.x - w.x| < S / 6 ∧ |p.z - w.z| < S / 6) ∧
    (∀ (p : Vec3) (S : ℝ), ¬ isInWater p none S) ∧
    (∀ (x y yy z : ℝ) (w : Option Vec3) (S : ℝ),
      isInWater ⟨x, y, z⟩ w S ↔ isInWater ⟨x, yy, z⟩ w S) := by
  refine ⟨fun p w S => Iff.rfl, fun p S h => h, fun x y yy z w S => ?_⟩
  cases w with
  | none => exact Iff.rfl
  | some v => exact Iff.rfl

/-- C9 witness: the specification applied at a concrete position and water
surface. -/
theorem C9_isInWater_spec_witness :
    (isInWater ⟨10, 0, 20⟩ (some ⟨0, 0, 0⟩) 1000 ↔
      |(10 : ℝ) - 0| < 1000 / 6 ∧ |(20 : ℝ) - 0| < 1000 / 6) ∧
    ¬ isInWater ⟨10, 0, 20⟩ none 1000 :=
  ⟨C9_isInWater_spec.1 ⟨10, 0, 20⟩ ⟨0, 0, 0⟩ 1000,
   C9_isInWater_spec.2.1 ⟨10, 0, 20⟩ 1000⟩

/-- C10: `checkTreeCollisions` leaves the tree list unchanged (trees are
immutable under collision resolution), never modifies the vertical
coordinate of the position, and when it returns false it leaves the input
position entirely unchanged. -/
theorem C10_collision_frame (p : Vec3) (radius : ℝ) (trees : List Tree) :
    (checkTreeCollisions p radius trees).trees = trees ∧
    (checkTreeCollisions p radius trees).position.y = p.y ∧
    ((checkTreeCollisions p radius trees).collided = false →
      (checkTreeCollisions p radius trees).position = p) := by
  induction trees with
  | nil => exact ⟨rfl, rfl, fun _ => rfl⟩
  | cons t rest ih =>
    by_cases h : planarDist p t.position < radius + t.radius
    · refine ⟨?_, ?_, ?_⟩
      · simp [checkTreeCollisions, h]
      · simp [checkTreeCollisions, h]
      · intro hc
        exfalso
        simp [checkTreeCollisions, h] at hc
    · refine ⟨?_, ?_, ?_⟩
      · simp [checkTreeCollisions, h, ih.1]
      · simp [checkTreeCollisions, h, ih.2.1]
      · intro hc
        simp only [checkTreeCollisions, if_neg h] at hc ⊢
        exact ih.2.2 hc

/-- C10 witness: on the empty tree list the call returns false, keeps the
tree list empty and the position unchanged. -/
theorem C10_collision_frame_witness :
    (checkTreeCollisions ⟨7, 8, 9⟩ 1 []).trees = [] ∧
    (checkTreeCollisions ⟨7, 8, 9⟩ 1 []).position.y = 8 ∧
    (checkTreeCollisions ⟨7, 8, 9⟩ 1 []).position = ⟨7, 8, 9⟩ :=
  ⟨(C10_collision_frame ⟨7, 8, 9⟩ 1 []).1,
   (C10_collision_frame ⟨7, 8, 9⟩ 1 []).2.1,
   (C10_collision_frame ⟨7, 8, 9⟩ 1 []).2.2 rfl⟩

/-- C3 counterexample: the ground check of src/main.js line 454 is the
strict `<`, not `≤`.  Starting at `y = 1.6`, `velocity.y = 4`,
`canJump = false` with `dt = 0.1`, the vertical position at frame end is
exactly `CHARACTER_HEIGHT = 1.7` (so `≤` holds), yet the vertical velocity
is left at `1 ≠ 0` and `canJump` stays false. -/
theorem C3_ground_contact_counterexample :
    (integrateVertical ⟨1.6, 4, false⟩ 0.1).y ≤ CHARACTER_HEIGHT ∧
    (verticalFrame ⟨1.6, 4, false⟩ 0.1).vy ≠ 0 ∧
    (verticalFrame ⟨1.6, 4, false⟩ 0.1).canJump = false := by
  norm_num [integrateVertical, verticalFrame, groundContact, CHARACTER_HEIGHT,
    GRAVITY]

/-- C3 (amended: the ground check fires when the frame-end vertical position
is strictly below the stand height): whenever the vertical position after
gravity integration is `< CHARACTER_HEIGHT`, the frame ends with the
position snapped to `CHARACTER_HEIGHT`, zero vertical velocity and
`canJump = true`; in particular, from `y = 1.69` with zero vertical velocity
and no jump input, any frame ends at `y = 1.7`, `velocity.y = 0`,
`canJump = true`. -/
theorem C3_ground_contact :
    (∀ (s : VerticalState) (dt : ℝ),
      (integrateVertical s dt).y < CHARACTER_HEIGHT →
        verticalFrame s dt = ⟨CHARACTER_HEIGHT, 0, true⟩) ∧
    (∀ (dt : ℝ) (c : Bool),
      verticalFrame ⟨1.69, 0, c⟩ dt = ⟨CHARACTER_HEIGHT, 0, true⟩) := by
  constructor
  · intro s dt h
    simp [verticalFrame, groundContact, h]
  · intro dt c
    have h : (integrateVertical ⟨1.69, 0, c⟩ dt).y < CHARACTER_HEIGHT := by
      simp only [integrateVertical, CHARACTER_HEIGHT, GRAVITY]
      nlinarith [sq_nonneg dt]
    simp [verticalFrame, groundContact, h]

/-- C3 witness: the amended ground-contact theorem applied at `y = 1`,
`velocity.y = 0`, `dt = 0`. -/
theorem C3_ground_contact_witness :
    verticalFrame ⟨1, 0, false⟩ 0 = ⟨CHARACTER_HEIGHT, 0, true⟩ :=
  C3_ground_contact.1 ⟨1, 0, false⟩ 0
    (by norm_num [integrateVertical, CHARACTER_HEIGHT, GRAVITY])

/-- Helper: pushing a point to distance `R` along the unit vector from `c`
toward `p` indeed lands at planar distance `R` from `c`, provided the
original planar distance is positive and `R` is positive. -/
lemma planarDist_push (p c : Vec3) (R : ℝ) (hd : 0 < planarDist p c)
    (hR : 0 < R) :
    planarDist ⟨c.x + (p.x - c.x) / planarDist p c * R, p.y,
                c.z + (p.z - c.z) / planarDist p c * R⟩ c = R := by
  have hs : (0 : ℝ) ≤ (p.x - c.x) * (p.x - c.x) + (p.z - c.z) * (p.z - c.z) :=
    add_nonneg (mul_self_nonneg _) (mul_self_nonneg _)
  have hsq : planarDist p c * planarDist p c =
      (p.x - c.x) * (p.x - c.x) + (p.z - c.z) * (p.z - c.z) :=
    Real.mul_self_sqrt hs
  have hd' : planarDist p c ≠ 0 := ne_of_gt hd
  have harg : (c.x + (p.x - c.x) / planarDist p c * R - c.x) *
        (c.x + (p.x - c.x) / planarDist p c * R - c.x) +
      (c.z + (p.z - c.z) / planarDist p c * R - c.z) *
        (c.z + (p.z - c.z) / planarDist p c * R - c.z) = R * R := by
    have hexp : (c.x + (p.x - c.x) / planarDist p c * R - c.x) *
          (c.x + (p.x - c.x) / planarDist p c * R - c.x) +
        (c.z + (p.z - c.z) / planarDist p c * R - c.z) *
          (c.z + (p.z - c.z) / planarDist p c * R - c.z) =
        ((p.x - c.x) * (p.x - c.x) + (p.z - c.z) * (p.z - c.z)) * (R * R) /
          (planarDist p c * planarDist p c) := by
      field_simp
      ring
    rw [hexp, ← hsq]
    field_simp
  rw [show planarDist ⟨c.x + (p.x - c.x) / planarDist p c * R, p.y,
        c.z + (p.z - c.z) / planarDist p c * R⟩ c =
      Real.sqrt ((c.x + (p.x - c.x) / planarDist p c * R - c.x) *
          (c.x + (p.x - c.x) / planarDist p c * R - c.x) +
        (c.z + (p.z - c.z) / planarDist p c * R - c.z) *
          (c.z + (p.z - c.z) / planarDist p c * R - c.z)) from rfl]
  rw [harg, Real.sqrt_mul_self hR.le]

/-- C1: on the first tree in input order whose planar distance `d` to the
position satisfies `0 < d < radius + tree.radius` (no earlier tree
overlapping), `checkTreeCollisions` pushes the position so that the
post-resolution planar distance from that tree's center is exactly
`radius + tree.radius` and returns true; the result does not depend on the
trees after it (captured by the universally quantified `post` and the
equality with the run on the truncated list). -/
theorem C1_collision_pushout (p : Vec3) (radius : ℝ) (pre post : List Tree)
    (t : Tree)
    (hpre : ∀ t' ∈ pre, radius + t'.radius ≤ planarDist p t'.position)
    (hd0 : 0 < planarDist p t.position)
    (hdR : planarDist p t.position < radius + t.radius) :
    (checkTreeCollisions p radius (pre ++ t :: post)).collided = true ∧
    planarDist (checkTreeCollisions p radius (pre ++ t :: post)).position
      t.position = radius + t.radius ∧
    (checkTreeCollisions p radius (pre ++ t :: post)).position =
      (checkTreeCollisions p radius (pre ++ [t])).position := by
  induction pre with
  | nil =>
    refine ⟨?_, ?_, ?_⟩
    · simp [checkTreeCollisions, hdR]
    · have hR : 0 < radius + t.radius := lt_trans hd0 hdR
      have hpush := planarDist_push p t.position (radius + t.radius) hd0 hR
      simp only [List.nil_append, checkTreeCollisions, if_pos hdR]
      exact hpush
    · simp [checkTreeCollisions, hdR]
  | cons t' pre' ih =>
    have hge := hpre t' (List.mem_cons_self t' pre')
    have hcond : ¬ (planarDist p t'.position < radius + t'.radius) :=
      not_lt.mpr hge
    have ih' := ih (fun tt h => hpre tt (List.mem_cons_of_mem _ h))
    simp only [List.cons_append, checkTreeCollisions, if_neg hcond]
    exact ⟨ih'.1, ih'.2.1, ih'.2.2⟩

/-- C1 witness: a character of radius 1 at `(1, 5, 0)` overlapping a single
tree of radius 1 at the origin (planar distance 1) is pushed to planar
distance `1 + 1 = 2` and the call returns true. -/
theorem C1_collision_pushout_witness :
    (checkTreeCollisions ⟨1, 5, 0⟩ 1 [⟨⟨0, 0, 0⟩, 1⟩]).collided = true ∧
    planarDist (checkTreeCollisions ⟨1, 5, 0⟩ 1 [⟨⟨0, 0, 0⟩, 1⟩]).position
      ⟨0, 0, 0⟩ = 1 + 1 := by
  have h := C1_collision_pushout ⟨1, 5, 0⟩ 1 [] [] ⟨⟨0, 0, 0⟩, 1⟩
    (by simp)
    (by norm_num [planarDist, Real.sqrt_one])
    (by norm_num [planarDist, Real.sqrt_one])
  exact ⟨h.1, h.2.1⟩

/-- Helper: the world-bounds clamp always lands in
`[-WORLD_SIZE / 2, WORLD_SIZE / 2]` on both horizontal axes. -/
lemma clampToWorld_bounds (q : Vec3) :
    -(WORLD_SIZE / 2) ≤ (clampToWorld q).x ∧ (clampToWorld q).x ≤ WORLD_SIZE / 2 ∧
    -(WORLD_SIZE / 2) ≤ (clampToWorld q).z ∧ (clampToWorld q).z ≤ WORLD_SIZE / 2 := by
  unfold clampToWorld WORLD_SIZE
  dsimp only
  split_ifs <;> refine ⟨?_, ?_, ?_, ?_⟩ <;> linarith

/-- C4: after one full frame of the src/core.js movement block — velocity
computation, rotation update, movement integration, tree collision
resolution, the world-bounds clamp and the ground check — the character's
horizontal position lies within `[-WORLD_SIZE / 2, WORLD_SIZE / 2]` on both
the x and z axes, whatever the input state (the clamp is the last operation
that writes the horizontal coordinates; the src/main.js variant runs the
identical clamp last as well). -/
theorem C4_world_bounds (pos : Vec3) (rotY : ℝ) (ms : MovementState)
    (water : Option Vec3) (trees : List Tree) (moveDelta delta : ℝ) :
    -(WORLD_SIZE / 2) ≤
      (animateFrameCore pos rotY ms water trees moveDelta delta).position.x ∧
    (animateFrameCore pos rotY ms water trees moveDelta delta).position.x ≤
      WORLD_SIZE / 2 ∧
    -(WORLD_SIZE / 2) ≤
      (animateFrameCore pos rotY ms water trees moveDelta delta).position.z ∧
    (animateFrameCore pos rotY ms water trees moveDelta delta).position.z ≤
      WORLD_SIZE / 2 := by
  unfold animateFrameCore
  dsimp only
  split_ifs with h
  · exact clampToWorld_bounds _
  · exact clampToWorld_bounds _

/-- Helper: a square root equals `k` once its argument is `k * k` with
`k` nonnegative. -/
lemma sqrt_eq_of_eq_sq {a k : ℝ} (hk : 0 ≤ k) (h : a = k * k) :
    Real.sqrt a = k := by
  rw [h, Real.sqrt_mul_self hk]

/-- C5: the per-frame velocity computation applies gravity to the vertical
velocity unconditionally (`velocity.y` decreases by `GRAVITY * dt` whatever
the state), recomputes the horizontal velocity fresh from the input flags
(the result is independent of the previous horizontal velocity), and the
horizontal speed is `CHARACTER_SPEED * dt` when exactly one of the
forward/backward flags is set, halved to `0.5 * (CHARACTER_SPEED * dt)`
inside the water footprint, and zero when no movement flag is set. -/
theorem C5_velocity_computation (ms : MovementState) (angle : ℝ) (pos : Vec3)
    (water : Option Vec3) (dt : ℝ) (hdt : 0 ≤ dt) :
    (computeFrameVelocity ms angle pos water dt).y =
      ms.velocity.y - GRAVITY * dt ∧
    (∀ a b : ℝ,
      computeFrameVelocity { ms with velocity := ⟨a, ms.velocity.y, b⟩ }
        angle pos water dt = computeFrameVelocity ms angle pos water dt) ∧
    (ms.moveForward ≠ ms.moveBackward →
      (¬ isInWater pos water WORLD_SIZE →
        Real.sqrt ((computeFrameVelocity ms angle pos water dt).x *
            (computeFrameVelocity ms angle pos water dt).x +
          (computeFrameVelocity ms angle pos water dt).z *
            (computeFrameVelocity ms angle pos water dt).z) =
          CHARACTER_SPEED * dt) ∧
      (isInWater pos water WORLD_SIZE →
        Real.sqrt ((computeFrameVelocity ms angle pos water dt).x *
            (computeFrameVelocity ms angle pos water dt).x +
          (computeFrameVelocity ms angle pos water dt).z *
            (computeFrameVelocity ms angle pos water dt).z) =
          0.5 * (CHARACTER_SPEED * dt))) ∧
    (ms.moveForward = false → ms.moveBackward = false →
      (computeFrameVelocity ms angle pos water dt).x = 0 ∧
      (computeFrameVelocity ms angle pos water dt).z = 0) := by
  have hspeed : (0 : ℝ) ≤ CHARACTER_SPEED * dt := by
    have : (0 : ℝ) ≤ CHARACTER_SPEED := by norm_num [CHARACTER_SPEED]
    exact mul_nonneg this hdt
  have hspeedw : (0 : ℝ) ≤ CHARACTER_SPEED * 0.5 * dt := by
    have : (0 : ℝ) ≤ CHARACTER_SPEED * 0.5 := by norm_num [CHARACTER_SPEED]
    exact mul_nonneg this hdt
  refine ⟨?_, ?_, ?_, ?_⟩
  · unfold computeFrameVelocity
    dsimp only
    split_ifs <;> rfl
  · intro a b
    rfl
  · intro hne
    cases hmF : ms.moveForward <;> cases hmB : ms.moveBackward
    · rw [hmF, hmB] at hne; exact absurd rfl hne
    · constructor
      · intro hw
        simp only [computeFrameVelocity, jsNumber, hmF, hmB, if_true, if_false,
          if_neg hw]
        norm_num [Real.sqrt_one]
        refine sqrt_eq_of_eq_sq (by linarith) ?_
        linear_combination (CHARACTER_SPEED * dt * (CHARACTER_SPEED * dt)) *
          (Real.sin_sq_add_cos_sq angle)
      · intro hw
        simp only [computeFrameVelocity, jsNumber, hmF, hmB, if_true, if_false,
          if_pos hw]
        norm_num [Real.sqrt_one]
        refine sqrt_eq_of_eq_sq (by linarith) ?_
        linear_combination (CHARACTER_SPEED * 0.5 * dt * (CHARACTER_SPEED * 0.5 * dt)) *
          (Real.sin_sq_add_cos_sq angle)
    · constructor
      · intro hw
        simp only [computeFrameVelocity, jsNumber, hmF, hmB, if_true, if_false,
          if_neg hw]
        norm_num [Real.sqrt_one]
        refine sqrt_eq_of_eq_sq (by linarith) ?_
        linear_combination (CHARACTER_SPEED * dt * (CHARACTER_SPEED * dt)) *
          (Real.sin_sq_add_cos_sq angle)
      · intro hw
        simp only [computeFrameVelocity, jsNumber, hmF, hmB, if_true, if_false,
          if_pos hw]
        norm_num [Real.sqrt_one]
        refine sqrt_eq_of_eq_sq (by linarith) ?_
        linear_combination (CHARACTER_SPEED * 0.5 * dt * (CHARACTER_SPEED * 0.5 * dt)) *
          (Real.sin_sq_add_cos_sq angle)
    · rw [hmF, hmB] at hne; exact absurd rfl hne
  · intro hmF hmB
    simp only [computeFrameVelocity, jsNumber, hmF, hmB]
    norm_num

/-- C5 witness: the velocity theorem at forward-only input, yaw 0, no
water, `dt = 1`, previous velocity `(7, 2, 9)`. -/
theorem C5_velocity_computation_witness :
    (computeFrameVelocity ⟨true, false, false, false, false, ⟨7, 2, 9⟩⟩ 0
        ⟨0, 0, 0⟩ none 1).y = (⟨7, 2, 9⟩ : Vec3).y - GRAVITY * 1 ∧
    (∀ a b : ℝ,
      computeFrameVelocity ⟨true, false, false, false, false, ⟨a, (⟨7, 2, 9⟩ : Vec3).y, b⟩⟩ 0
          ⟨0, 0, 0⟩ none 1 =
        computeFrameVelocity ⟨true, false, false, false, false, ⟨7, 2, 9⟩⟩ 0
          ⟨0, 0, 0⟩ none 1) ∧
    (true ≠ false →
      (¬ isInWater ⟨0, 0, 0⟩ none WORLD_SIZE →
        Real.sqrt ((computeFrameVelocity ⟨true, false, false, false, false, ⟨7, 2, 9⟩⟩ 0
              ⟨0, 0, 0⟩ none 1).x *
            (computeFrameVelocity ⟨true, false, false, false, false, ⟨7, 2, 9⟩⟩ 0
              ⟨0, 0, 0⟩ none 1).x +
          (computeFrameVelocity ⟨true, false, false, false, false, ⟨7, 2, 9⟩⟩ 0
              ⟨0, 0, 0⟩ none 1).z *
            (computeFrameVelocity ⟨true, false, false, false, false, ⟨7, 2, 9⟩⟩ 0
              ⟨0, 0, 0⟩ none 1).z) = CHARACTER_SPEED * 1) ∧
      (isInWater ⟨0, 0, 0⟩ none WORLD_SIZE →
        Real.sqrt ((computeFrameVelocity ⟨true, false, false, false, false, ⟨7, 2, 9⟩⟩ 0
              ⟨0, 0, 0⟩ none 1).x *
            (computeFrameVelocity ⟨true, false, false, false, false, ⟨7, 2, 9⟩⟩ 0
              ⟨0, 0, 0⟩ none 1).x +
          (computeFrameVelocity ⟨true, false, false, false, false, ⟨7, 2, 9⟩⟩ 0
              ⟨0, 0, 0⟩ none 1).z *
            (computeFrameVelocity ⟨true, false, false, false, false, ⟨7, 2, 9⟩⟩ 0
              ⟨0, 0, 0⟩ none 1).z) = 0.5 * (CHARACTER_SPEED * 1))) ∧
    (true = false → false = false →
      (computeFrameVelocity ⟨true, false, false, false, false, ⟨7, 2, 9⟩⟩ 0
          ⟨0, 0, 0⟩ none 1).x = 0 ∧
      (computeFrameVelocity ⟨true, false, false, false, false, ⟨7, 2, 9⟩⟩ 0
          ⟨0, 0, 0⟩ none 1).z = 0) :=
  C5_velocity_computation ⟨true, false, false, false, false, ⟨7, 2, 9⟩⟩ 0
    ⟨0, 0, 0⟩ none 1 (by norm_num)

/-- C8: the division-by-zero branch of `checkTreeCollisions` is reachable
and unguarded.  With the character's planar coordinates exactly at an
overlapping tree's center the computed planar distance is `0`, the overlap
guard `distance < radius + tree.radius` still holds (`0 < 1.5`), so the
push-direction computation `dx / distance`, `dz / distance` divides by zero
(in JS, `0 / 0` is `NaN`; in this embedding total division returns `0`, so
the recorded result position is the unpushed tree center). -/
theorem C8_zero_distance_division :
    planarDist ⟨3, 2, 4⟩ ⟨3, 0, 4⟩ = 0 ∧
    planarDist ⟨3, 2, 4⟩ ⟨3, 0, 4⟩ < 1 + (0.5 : ℝ) ∧
    (checkTreeCollisions ⟨3, 2, 4⟩ 1 [⟨⟨3, 0, 4⟩, 0.5⟩]).collided = true ∧
    (checkTreeCollisions ⟨3, 2, 4⟩ 1 [⟨⟨3, 0, 4⟩, 0.5⟩]).position = ⟨3, 2, 4⟩ := by
  have h0 : planarDist ⟨3, 2, 4⟩ ⟨3, 0, 4⟩ = 0 := by
    norm_num [planarDist, Real.sqrt_zero]
  refine ⟨h0, by rw [h0]; norm_num, ?_, ?_⟩
  · norm_num [checkTreeCollisions, planarDist, Real.sqrt_zero]
  · norm_num [checkTreeCollisions, planarDist, Real.sqrt_zero]

/-- C7 counterexample: grass-blade animation is not a deterministic
function of the captured original transform, index, wind factor, phase,
gust strength and direction: with all of those equal (phase 0, strength 1,
direction `(0, 0)`, blade index 0, tuft at x = 0, same blade) but different
per-frame `Math.random()` draws, the resulting rotations differ. -/
theorem C7_grass_random_counterexample :
    animateGrassBladeStep 0 1 ⟨0, 0⟩ 0 0 0.5 0.5 0.5 ⟨0, 0, 0⟩ ≠
      animateGrassBladeStep 0 1 ⟨0, 0⟩ 0 0 0.9 0.9 0.9 ⟨0, 0, 0⟩ := by
  intro h
  have hx := congrArg Vec3.x h
  simp only [animateGrassBladeStep] at hx
  norm_num at hx

/-- C7 (amended: the statelessness holds for leaves, branches and bushes;
grass blades additionally draw fresh random jitter every frame, so their
rotation is not a function of the listed inputs alone): for leaves,
branches and bushes the per-frame wind step is idempotent at a fixed global
phase, gust strength and direction (running it twice equals running it
once), never mutates the captured original transform data (for the lazily
captured elements the original is exactly the pre-existing snapshot, or the
current rotation on first touch, and stays so), and the resulting transform
of a leaf is determined by its captured original transform, wind factor,
index, phase, strength and direction alone. -/
theorem C7_wind_animation_stateless :
    (∀ (wt ws : ℝ) (wd : Dir2) (i : ℕ) (leaf : Leaf),
      animateLeafStep wt ws wd i (animateLeafStep wt ws wd i leaf) =
        animateLeafStep wt ws wd i leaf ∧
      (animateLeafStep wt ws wd i leaf).originalRotation =
        leaf.originalRotation ∧
      (animateLeafStep wt ws wd i leaf).originalPosition =
        leaf.originalPosition ∧
      (animateLeafStep wt ws wd i leaf).windFactor = leaf.windFactor) ∧
    (∀ (wt ws : ℝ) (wd : Dir2) (i : ℕ) (b : Branch),
      animateBranchStep wt ws wd i (animateBranchStep wt ws wd i b) =
        animateBranchStep wt ws wd i b ∧
      (animateBranchStep wt ws wd i b).originalRotation =
        some (b.originalRotation.getD b.rotation)) ∧
    (∀ (wt ws : ℝ) (wd : Dir2) (b : Bush),
      animateBushStep wt ws wd (animateBushStep wt ws wd b) =
        animateBushStep wt ws wd b ∧
      (animateBushStep wt ws wd b).originalRotation =
        some (b.originalRotation.getD b.rotation) ∧
      (animateBushStep wt ws wd b).position = b.position) ∧
    (∀ (wt ws : ℝ) (wd : Dir2) (i : ℕ) (l1 l2 : Leaf),
      l1.originalRotation = l2.originalRotation →
      l1.originalPosition = l2.originalPosition →
      l1.windFactor = l2.windFactor →
      l1.originalRotation.isSome = true →
      l1.originalPosition.isSome = true →
      (animateLeafStep wt ws wd i l1).rotation =
        (animateLeafStep wt ws wd i l2).rotation ∧
      (animateLeafStep wt ws wd i l1).position =
        (animateLeafStep wt ws wd i l2).position) := by
  refine ⟨?_, ?_, ?_, ?_⟩
  · intro wt ws wd i leaf
    obtain ⟨orot, opos, wf, rot, pos⟩ := leaf
    cases orot <;> cases opos <;> simp [animateLeafStep]
  · intro wt ws wd i b
    obtain ⟨orot, rot⟩ := b
    cases orot <;> simp [animateBranchStep]
  · intro wt ws wd b
    obtain ⟨bpos, orot, rot⟩ := b
    cases orot <;> simp [animateBushStep]
  · intro wt ws wd i l1 l2 h1 h2 h3 hs1 hs2
    cases hor : l1.originalRotation with
    | none => rw [hor] at hs1; simp at hs1
    | some o =>
      cases hop : l1.originalPosition with
      | none => rw [hop] at hs2; simp at hs2
      | some q =>
        have hor2 : l2.originalRotation = some o := h1.symm.trans hor
        have hop2 : l2.originalPosition = some q := h2.symm.trans hop
        constructor <;>
          simp [animateLeafStep, hor, hop, hor2, hop2, h3]

/-- C7 witness: two leaves with the same captured originals and wind factor
but different current transforms receive the same rotation and position
from the wind step. -/
theorem C7_wind_animation_stateless_witness :
    (animateLeafStep 0 1 ⟨1, 0⟩ 0
        ⟨some ⟨0, 0, 0⟩, some ⟨0, 0, 0⟩, some 1, ⟨1, 2, 3⟩, ⟨4, 5, 6⟩⟩).rotation =
      (animateLeafStep 0 1 ⟨1, 0⟩ 0
        ⟨some ⟨0, 0, 0⟩, some ⟨0, 0, 0⟩, some 1, ⟨9, 9, 9⟩, ⟨8, 8, 8⟩⟩).rotation ∧
    (animateLeafStep 0 1 ⟨1, 0⟩ 0
        ⟨some ⟨0, 0, 0⟩, some ⟨0, 0, 0⟩, some 1, ⟨1, 2, 3⟩, ⟨4, 5, 6⟩⟩).position =
      (animateLeafStep 0 1 ⟨1, 0⟩ 0
        ⟨some ⟨0, 0, 0⟩, some ⟨0, 0, 0⟩, some 1, ⟨9, 9, 9⟩, ⟨8, 8, 8⟩⟩).position :=
  C7_wind_animation_stateless.2.2.2 0 1 ⟨1, 0⟩ 0 _ _ rfl rfl rfl rfl rfl

end ForestEcho
